import Mathlib

/-!
Shallow embedding of the coursework planner / deadline tracker (`src/app.py`)
and a verification of its deadline/priority engine, dashboard aggregation,
CSV export and task-mutation routes.

Conventions used throughout:

* Python strings are `String`; `str.strip()` is `pyStrip` (explicit
  whitespace model, both ends).
* `datetime` values are records of `Nat` fields; `datetime.strptime` and
  `datetime.fromisoformat` are modelled by character-level parsers over
  ASCII digits (the only digits the application's own inputs contain),
  reproducing the shapes accepted by CPython's strptime regexes,
  including 1-or-2-digit hour/minute/month/day tokens wherever the
  regexes accept them, and the calendar validation done by the
  `datetime` constructor (month ranges, month lengths, leap years).
* `datetime.now()` and `date.today()` are ambient values in Python; here
  they are passed explicitly as `now : PyDateTime` and `today : PyDate`.
* Python float division inside `round((completed / total) * 100)` is
  modelled as exact rational division; `pyRound` is Python 3 `round`
  (round-half-to-even) on that exact rational.
* The SQLite task table is a `List TaskRow`; `UPDATE ... WHERE id = ?
  AND user_id = ?` is a `List.map` guarded by that condition, `DELETE`
  is a `List.filter`, and `cur.rowcount` is a `List.countP`.
* `flash(...)` messages are returned as the `String` component of each
  route's result.
-/

/-! ## Characters and digits (Python `\d` on the application's ASCII data) -/

def isDigit09 (c : Char) : Prop := 48 ≤ c.toNat ∧ c.toNat ≤ 57

instance instDecIsDigit09 (c : Char) : Decidable (isDigit09 c) := by
  unfold isDigit09
  exact inferInstance

def digitVal (c : Char) : Nat := c.toNat - 48

def isSpaceChar (c : Char) : Bool :=
  c.toNat = 32 ∨ c.toNat = 9 ∨ c.toNat = 10 ∨ c.toNat = 13 ∨ c.toNat = 11 ∨ c.toNat = 12

/-- Model of Python `str.strip()`: drop whitespace from both ends. -/
def pyStrip (s : String) : String :=
  String.mk (((s.toList.dropWhile isSpaceChar).reverse.dropWhile isSpaceChar).reverse)

/-! ## `normalize_time_hhmm` (src/app.py lines 112-120)

`datetime.strptime(t, "%H:%M")` succeeds exactly when `t` matches the
anchored CPython regex `(2[0-3]|[0-1]\d|\d):([0-5]\d|\d)` with no
trailing characters.  `readMin` is the minute alternation, `readHM` the
whole pattern (returning the parsed values, later reused by
`parse_due_datetime`). -/

/-- Minute token of strptime `%M`: one digit, or two digits `00`-`59`. -/
def readMin : List Char → Option Nat
  | [c] => if isDigit09 c then some (digitVal c) else none
  | [c1, c2] =>
    if c1.toNat ≤ 53 ∧ isDigit09 c1 ∧ isDigit09 c2 then
      some (10 * digitVal c1 + digitVal c2)
    else none
  | _ => none

/-- Two-digit hour token of strptime `%H`: `2[0-3]` or `[0-1]\d`
(character codes: 50 is `2`, 48 is `0`, 49 is `1`, 51 is `3`). -/
def hourTwoOk (c1 c2 : Char) : Prop :=
  (c1.toNat = 50 ∧ 48 ≤ c2.toNat ∧ c2.toNat ≤ 51) ∨ ((c1.toNat = 48 ∨ c1.toNat = 49) ∧ isDigit09 c2)

instance instDecHourTwoOk (c1 c2 : Char) : Decidable (hourTwoOk c1 c2) := by
  unfold hourTwoOk
  exact inferInstance

/-- Full strptime `"%H:%M"` match: `(hour, minute)` when the whole string
is consumed, `none` otherwise. -/
def readHM : List Char → Option (Nat × Nat)
  | c1 :: c2 :: rest =>
    if c2 = ':' then
      if isDigit09 c1 then (readMin rest).map (fun m => (digitVal c1, m)) else none
    else
      match rest with
      | c3 :: rest2 =>
        if c3 = ':' ∧ hourTwoOk c1 c2 then
          (readMin rest2).map (fun m => (10 * digitVal c1 + digitVal c2, m))
        else none
      | [] => none
  | _ => none

/-- src/app.py lines 112-120: keep a valid `HH:MM` input, fall back to
end-of-day `"23:59"` for the empty string or any parse failure. -/
def normalize_time_hhmm (t : String) : String :=
  if t = "" then "23:59"
  else if (readHM t.toList).isSome then t
  else "23:59"

/-- src/app.py lines 107-109: only `Low`/`Medium`/`High` survive,
anything else becomes `"Medium"`. -/
def normalize_priority (p : String) : String :=
  if p = "Low" ∨ p = "Medium" ∨ p = "High" then p else "Medium"

/-! ## Calendar dates and datetimes -/

structure PyDate where
  year : Nat
  month : Nat
  day : Nat
deriving DecidableEq

/-- A naive `datetime.datetime` (microsecond granularity, as in CPython). -/
structure PyDateTime where
  date : PyDate
  hour : Nat
  minute : Nat
  second : Nat
  microsecond : Nat
deriving DecidableEq

def isLeap (y : Nat) : Bool :=
  (y % 4 = 0 ∧ y % 100 ≠ 0) ∨ y % 400 = 0

def monthDays : Nat → Nat
  | 1 => 31 | 2 => 28 | 3 => 31 | 4 => 30 | 5 => 31 | 6 => 30
  | 7 => 31 | 8 => 31 | 9 => 30 | 10 => 31 | 11 => 30 | 12 => 31
  | _ => 0

def daysInMonth (y m : Nat) : Nat :=
  if m = 2 ∧ isLeap y then 29 else monthDays m

def daysBeforeMonth (y m : Nat) : Nat :=
  (List.range (m - 1)).foldl (fun acc i => acc + daysInMonth y (i + 1)) 0

/-- Proleptic Gregorian ordinal, as in `datetime.date.toordinal`
(`0001-01-01` is day 1); `date` subtraction in Python is the difference
of these ordinals. -/
def PyDate.toOrdinal (d : PyDate) : Nat :=
  let y := d.year - 1
  365 * y + y / 4 - y / 100 + y / 400 + daysBeforeMonth d.year d.month + d.day

/-- `(due.date() - today).days` from the Python sources. -/
def daysUntil (today due : PyDate) : Int :=
  (due.toOrdinal : Int) - (today.toOrdinal : Int)

/-- Python `date` comparison (lexicographic year, month, day). -/
def PyDate.ltP (a b : PyDate) : Prop :=
  a.year < b.year ∨ (a.year = b.year ∧ (a.month < b.month ∨ (a.month = b.month ∧ a.day < b.day)))

instance instDecPyDateLt (a b : PyDate) : Decidable (PyDate.ltP a b) := by
  unfold PyDate.ltP
  exact inferInstance

/-- Python `datetime` comparison (lexicographic on all components). -/
def PyDateTime.ltP (a b : PyDateTime) : Prop :=
  PyDate.ltP a.date b.date
  ∨ (a.date = b.date
     ∧ (a.hour < b.hour
        ∨ (a.hour = b.hour
           ∧ (a.minute < b.minute
              ∨ (a.minute = b.minute
                 ∧ (a.second < b.second
                    ∨ (a.second = b.second ∧ a.microsecond < b.microsecond)))))))

instance instDecPyDateTimeLt (a b : PyDateTime) : Decidable (PyDateTime.ltP a b) := by
  unfold PyDateTime.ltP
  exact inferInstance

/-! ## `parse_due_datetime` (src/app.py lines 123-131)

strptime `"%Y-%m-%d %H:%M"`: a 4-digit year, `-`, a 1-or-2-digit month,
`-`, a 1-or-2-digit day, whitespace, then the `%H:%M` pattern above; the
`datetime` constructor then validates `1 <= year`, `1 <= month <= 12`
and `1 <= day <= daysInMonth`. -/

/-- Greedy 1-or-2-digit numeric token (month/day positions of the
strptime regex; two-digit values out of range are rejected afterwards by
the `datetime` constructor, exactly as in CPython). -/
def take1or2 : List Char → Option (Nat × List Char)
  | [] => none
  | [c1] => if isDigit09 c1 then some (digitVal c1, []) else none
  | c1 :: c2 :: rest =>
    if isDigit09 c1 then
      if isDigit09 c2 then some (10 * digitVal c1 + digitVal c2, rest)
      else some (digitVal c1, c2 :: rest)
    else none

/-- Parse a `"YYYY-MM-DD"` due-date string into a valid calendar date. -/
def parseDateYMD (s : String) : Option PyDate :=
  match s.toList with
  | y1 :: y2 :: y3 :: y4 :: '-' :: rest =>
    if isDigit09 y1 ∧ isDigit09 y2 ∧ isDigit09 y3 ∧ isDigit09 y4 then
      let y := 1000 * digitVal y1 + 100 * digitVal y2 + 10 * digitVal y3 + digitVal y4
      match take1or2 rest with
      | some (m, '-' :: rest2) =>
        match take1or2 rest2 with
        | some (d, []) =>
          if 1 ≤ y ∧ 1 ≤ m ∧ m ≤ 12 ∧ 1 ≤ d ∧ d ≤ daysInMonth y m then
            some ⟨y, m, d⟩
          else none
        | _ => none
      | _ => none
    else none
  | _ => none

/-- src/app.py lines 123-131: combine the date and (normalized) time
strings into a `datetime`, `none` when the date is empty or malformed. -/
def parse_due_datetime (due_date_str due_time_str : String) : Option PyDateTime :=
  if due_date_str = "" then none
  else
    let t := normalize_time_hhmm due_time_str
    match parseDateYMD due_date_str, readHM t.toList with
    | some d, some hm => some ⟨d, hm.1, hm.2, 0, 0⟩
    | _, _ => none

/-! ## `effective_priority` (src/app.py lines 134-163) -/

/-- src/app.py lines 134-163: the priority the UI shows plus the
auto-applied flag, given the ambient `now`/`today`. -/
def effective_priority (due_date_str due_time_str status stored_priority : String)
    (now : PyDateTime) (today : PyDate) : String × Bool :=
  let pr := normalize_priority stored_priority
  if status = "Completed" then (pr, false)
  else
    match parse_due_datetime due_date_str due_time_str with
    | none => (pr, false)
    | some due_dt =>
      if PyDateTime.ltP due_dt now then ("High", true)
      else if due_dt.date = today then ("High", true)
      else
        let days_left := daysUntil today due_dt.date
        if 1 ≤ days_left ∧ days_left ≤ 3 then ("Medium", true)
        else (pr, false)

/-! ## Display formatting helpers (src/app.py lines 85-104) -/

def pad2 (n : Nat) : String :=
  if n < 10 then "0" ++ toString n else toString n

def pad4 (n : Nat) : String :=
  if n < 10 then "000" ++ toString n
  else if n < 100 then "00" ++ toString n
  else if n < 1000 then "0" ++ toString n
  else toString n

/-- src/app.py lines 96-104: `YYYY-MM-DD` becomes `dd/mm/yyyy`; an empty
string stays empty and an unparseable string is returned unchanged. -/
def format_ymd_date (s : String) : String :=
  if s = "" then ""
  else
    match parseDateYMD s with
    | some d => pad2 d.day ++ "/" ++ pad2 d.month ++ "/" ++ pad4 d.year
    | none => s

/-- Exactly two ASCII digits. -/
def read2 : List Char → Option (Nat × List Char)
  | c1 :: c2 :: rest =>
    if isDigit09 c1 ∧ isDigit09 c2 then some (10 * digitVal c1 + digitVal c2, rest) else none
  | _ => none

/-- Exactly four ASCII digits. -/
def read4 : List Char → Option (Nat × List Char)
  | c1 :: c2 :: c3 :: c4 :: rest =>
    if isDigit09 c1 ∧ isDigit09 c2 ∧ isDigit09 c3 ∧ isDigit09 c4 then
      some (1000 * digitVal c1 + 100 * digitVal c2 + 10 * digitVal c3 + digitVal c4, rest)
    else none
  | _ => none

/-- Optional `:SS` and fractional-second tail of an ISO timestamp. -/
def isoTail : List Char → Bool
  | [] => true
  | ':' :: rest =>
    match read2 rest with
    | some (ss, rest2) =>
      decide (ss < 60) &&
        (match rest2 with
         | [] => true
         | '.' :: ds => decide (ds ≠ []) && ds.all (fun c => decide (isDigit09 c)) && decide (ds.length ≤ 6)
         | _ => false)
    | none => false
  | _ => false

/-- Model of `datetime.fromisoformat` on the timestamps this application
stores (`YYYY-MM-DD`, optionally a `T`-or-space separator and
`HH:MM[:SS[.ffffff]]`). -/
def fromIsoformat (s : String) : Option PyDateTime :=
  match read4 s.toList with
  | some (y, '-' :: rest1) =>
    match read2 rest1 with
    | some (mo, '-' :: rest2) =>
      match read2 rest2 with
      | some (dy, rest3) =>
        if 1 ≤ y ∧ 1 ≤ mo ∧ mo ≤ 12 ∧ 1 ≤ dy ∧ dy ≤ daysInMonth y mo then
          match rest3 with
          | [] => some ⟨⟨y, mo, dy⟩, 0, 0, 0, 0⟩
          | sep :: rest4 =>
            if sep = 'T' ∨ sep = ' ' then
              match read2 rest4 with
              | some (hh, ':' :: rest5) =>
                match read2 rest5 with
                | some (mi, rest6) =>
                  if hh < 24 ∧ mi < 60 ∧ isoTail rest6 then some ⟨⟨y, mo, dy⟩, hh, mi, 0, 0⟩
                  else none
                | _ => none
              | _ => none
            else none
        else none
      | _ => none
    | _ => none
  | _ => none

/-- src/app.py lines 85-93: ISO timestamps become `dd/mm/yyyy HH:MM`;
empty stays empty, unparseable input is returned unchanged. -/
def format_iso_datetime (s : String) : String :=
  if s = "" then ""
  else
    match fromIsoformat s with
    | some dt =>
      pad2 dt.date.day ++ "/" ++ pad2 dt.date.month ++ "/" ++ pad4 dt.date.year
        ++ " " ++ pad2 dt.hour ++ ":" ++ pad2 dt.minute
    | none => s

/-! ## Task rows and the dashboard aggregation (src/app.py lines 242-410) -/

/-- One row of the `tasks` table (`description` is `""` for SQL NULL). -/
structure TaskRow where
  id : Nat
  user_id : Nat
  module_name : String
  title : String
  description : String
  due_date : String
  due_time : String
  status : String
  created_at : String
  priority : String
deriving DecidableEq

/-- src/app.py lines 336-352: the per-task `deadline_state` string
(the loop first overwrites `due_time` with its normalized form). -/
def task_deadline_state (now : PyDateTime) (today : PyDate) (t : TaskRow) : String :=
  let dtime := normalize_time_hhmm t.due_time
  let due_dt := parse_due_datetime t.due_date dtime
  if t.status = "Completed" then "completed"
  else
    match due_dt with
    | some d =>
      if PyDateTime.ltP d now then "overdue"
      else if d.date = today then "due_today"
      else if 0 < daysUntil today d.date ∧ daysUntil today d.date ≤ 3 then "due_soon"
      else "normal"
    | none => "normal"

/-- The dashboard's global counters (src/app.py lines 300-306). -/
structure DashStats where
  total : Nat
  todo : Nat
  in_progress : Nat
  completed : Nat
  overdue : Nat
  due_soon : Nat
deriving DecidableEq

/-- One iteration of the dashboard loop, counters only (src/app.py lines
315-352).  The source's mutually exclusive `elif` chains are rendered as
indicator increments on each field. -/
def dashStep (now : PyDateTime) (today : PyDate) (s : DashStats) (t : TaskRow) : DashStats :=
  let st := task_deadline_state now today t
  { total := s.total + 1,
    todo := s.todo + (if t.status = "To do" then 1 else 0),
    in_progress := s.in_progress + (if t.status = "In progress" then 1 else 0),
    completed := s.completed + (if t.status = "Completed" then 1 else 0),
    overdue := s.overdue + (if st = "overdue" then 1 else 0),
    due_soon := s.due_soon + (if st = "due_today" ∨ st = "due_soon" then 1 else 0) }

/-- The dashboard's counter pass over the user's ordered task list. -/
def dashboard_stats (now : PyDateTime) (today : PyDate) (tasks_raw : List TaskRow) : DashStats :=
  tasks_raw.foldl (dashStep now today) ⟨0, 0, 0, 0, 0, 0⟩

/-- The per-task view-model fields the dashboard loop attaches to each
task dict (src/app.py lines 315-382). -/
structure TaskView where
  module_name : String
  title : String
  description : String
  due_date : String
  due_time : String
  status : String
  created_at : String
  deadline_state : String
  priority_stored : String
  priority : String
  priority_auto : Bool
  due_date_display : String
  deadline_display : String
  created_at_display : String
  due_iso : String
deriving DecidableEq

/-- src/app.py lines 315-382, view-model part of one loop iteration. -/
def dashboard_task_view (now : PyDateTime) (today : PyDate) (t : TaskRow) : TaskView :=
  let dtime := normalize_time_hhmm t.due_time
  let ep := effective_priority t.due_date dtime t.status t.priority now today
  { module_name := t.module_name,
    title := t.title,
    description := t.description,
    due_date := t.due_date,
    due_time := dtime,
    status := t.status,
    created_at := t.created_at,
    deadline_state := task_deadline_state now today t,
    priority_stored := normalize_priority t.priority,
    priority := ep.1,
    priority_auto := ep.2,
    due_date_display := format_ymd_date t.due_date,
    deadline_display := format_ymd_date t.due_date ++ " " ++ dtime,
    created_at_display := format_iso_datetime t.created_at,
    due_iso := t.due_date ++ "T" ++ dtime }

/-- The dashboard's `tasks` view-model list, in the query's
`ORDER BY due_date ASC, due_time ASC` order of its input. -/
def dashboard_tasks (now : PyDateTime) (today : PyDate) (tasks_raw : List TaskRow) : List TaskView :=
  tasks_raw.map (dashboard_task_view now today)

/-! ## Completion percentages (src/app.py lines 384 and 389-393) -/

/-- Python 3 `round` to an integer: round-half-to-even on the exact
rational value. -/
def pyRound (q : ℚ) : ℤ :=
  let f := ⌊q⌋
  let r := q - (f : ℚ)
  if r < 1 / 2 then f
  else if 1 / 2 < r then f + 1
  else if f % 2 = 0 then f else f + 1

/-- src/app.py line 384: the global completion percentage. -/
def completion_percent (completed_count total_tasks : Nat) : ℤ :=
  if total_tasks = 0 then 0
  else pyRound (((completed_count : ℚ) / (total_tasks : ℚ)) * 100)

/-- src/app.py line 392: the per-module percentage (same formula, same
zero guard, computed at a second place in the source). -/
def module_percent (completed total : Nat) : ℤ :=
  if total = 0 then 0
  else pyRound (((completed : ℚ) / (total : ℚ)) * 100)

/-! ## Per-module summary (src/app.py lines 309-334 and 387-393) -/

/-- `module_summary_map[name]["total"/"completed"] += 1` on an
insertion-ordered association list (total, completed). -/
def bumpModule : List (String × Nat × Nat) → String → Bool → List (String × Nat × Nat)
  | [], m, c => [(m, 1, if c then 1 else 0)]
  | (k, tot, comp) :: rest, m, c =>
    if k = m then (k, tot + 1, if c then comp + 1 else comp) :: rest
    else (k, tot, comp) :: bumpModule rest m c

/-- One dashboard-loop iteration's effect on `module_summary_map`
(src/app.py lines 319-324 and 331-334): tasks whose stripped module
name is empty are skipped entirely. -/
def moduleStep (mp : List (String × Nat × Nat)) (t : TaskRow) : List (String × Nat × Nat) :=
  let m := pyStrip t.module_name
  if m = "" then mp else bumpModule mp m (t.status = "Completed")

/-- The dict `module_summary_map` after the dashboard loop. -/
def module_summary_map (tasks_raw : List TaskRow) : List (String × Nat × Nat) :=
  tasks_raw.foldl moduleStep []

/-- First-match lookup in the association list, `(0, 0)` when absent. -/
def lookupMod : List (String × Nat × Nat) → String → Nat × Nat
  | [], _ => (0, 0)
  | (k, tot, comp) :: rest, m => if k = m then (tot, comp) else lookupMod rest m

structure ModuleSummaryEntry where
  module : String
  total : Nat
  completed : Nat
  percent : ℤ
deriving DecidableEq

/-- src/app.py lines 387-393: one entry per key of `module_summary_map`,
keys sorted alphabetically (Python `sorted` on strings). -/
def module_summary (tasks_raw : List TaskRow) : List ModuleSummaryEntry :=
  (List.insertionSort (fun a b => a ≤ b)
      ((module_summary_map tasks_raw).map (fun p => p.1))).map (fun m =>
    { module := m,
      total := (lookupMod (module_summary_map tasks_raw) m).1,
      completed := (lookupMod (module_summary_map tasks_raw) m).2,
      percent := module_percent (lookupMod (module_summary_map tasks_raw) m).2
                   (lookupMod (module_summary_map tasks_raw) m).1 })

/-! ## CSV export (src/app.py lines 413-459) -/

def export_csv_header : List String :=
  ["Module", "Title", "Description", "Deadline", "Status", "Priority", "Created At"]

/-- src/app.py lines 435-449: the field list passed to `writer.writerow`
for one task row. -/
def export_row (now : PyDateTime) (today : PyDate) (t : TaskRow) : List String :=
  let due_time := normalize_time_hhmm t.due_time
  let pr_eff := (effective_priority t.due_date due_time t.status t.priority now today).1
  let deadline_display := format_ymd_date t.due_date ++ " " ++ due_time
  [t.module_name, t.title, t.description, deadline_display, t.status, pr_eff,
   format_iso_datetime t.created_at]

/-- The CSV data rows, over the same `ORDER BY due_date ASC, due_time
ASC` task list the dashboard receives for the same user. -/
def export_rows (now : PyDateTime) (today : PyDate) (tasks_raw : List TaskRow) : List (List String) :=
  tasks_raw.map (export_row now today)

/-- Projection of a dashboard view-model row to the CSV field list
(stated from the spec's export contract, for comparison with
`export_row`). -/
def csv_row_of_view (v : TaskView) : List String :=
  [v.module_name, v.title, v.description, v.deadline_display, v.status, v.priority,
   v.created_at_display]

/-! ## Task mutation routes (src/app.py lines 462-534) -/

/-- The form fields of the edit route (absent fields arrive as `""`,
except `priority` whose `request.form.get` default is `"Medium"`). -/
structure EditForm where
  module_name : String
  title : String
  due_date : String
  due_time : String
  description : String
  priority : String

/-- src/app.py lines 462-499: validate, then
`UPDATE tasks SET ... WHERE id = ? AND user_id = ?`; the flash message
depends on `cur.rowcount`. -/
def edit_task (db : List TaskRow) (uid tid : Nat) (f : EditForm) : List TaskRow × String :=
  let module_name := pyStrip f.module_name
  let title := pyStrip f.title
  let due_date := pyStrip f.due_date
  let due_time := normalize_time_hhmm (pyStrip f.due_time)
  let description := pyStrip f.description
  let priority := normalize_priority (pyStrip f.priority)
  if module_name = "" ∨ title = "" ∨ due_date = "" then
    (db, "Module, Title and Due Date are required to edit a task.")
  else if (parse_due_datetime due_date due_time).isNone then
    (db, "Invalid deadline. Please use the date/time pickers.")
  else
    let db2 := db.map (fun r =>
      if r.id = tid ∧ r.user_id = uid then
        { r with module_name := module_name, title := title, due_date := due_date,
                 due_time := due_time, description := description, priority := priority }
      else r)
    let rowcount := db.countP (fun r => decide (r.id = tid ∧ r.user_id = uid))
    if rowcount = 0 then (db2, "Task not found or you don't have permission to edit it.")
    else (db2, "Task updated successfully!")

/-- src/app.py lines 502-513: `DELETE FROM tasks WHERE id = ? AND
user_id = ?`, then an unconditional "Task deleted." flash. -/
def delete_task (db : List TaskRow) (uid tid : Nat) : List TaskRow × String :=
  (db.filter (fun r => !(decide (r.id = tid ∧ r.user_id = uid))), "Task deleted.")

/-- src/app.py lines 516-534: coerce the submitted status (default
`"To do"`), `UPDATE ... WHERE id = ? AND user_id = ?`, then an
unconditional "Status updated." flash. -/
def update_status (db : List TaskRow) (uid tid : Nat) (status_form : Option String) :
    List TaskRow × String :=
  let s0 := status_form.getD "To do"
  let new_status := if s0 = "To do" ∨ s0 = "In progress" ∨ s0 = "Completed" then s0 else "To do"
  (db.map (fun r =>
      if r.id = tid ∧ r.user_id = uid then { r with status := new_status } else r),
   "Status updated.")

/-! ## Spec-side characterisation of a valid 24-hour `HH:MM` string

Stated from the spec's words ("parses as a valid 24-hour hour:minute"):
an hour of one or two digits with value below 24, a colon, and a minute
of one or two digits with value below 60.  Compared against the
source-derived parser `readHM` in the theorem for C3. -/

def validHM24 : List Char → Bool
  | [a, b, c] => decide (b = ':' ∧ isDigit09 a ∧ isDigit09 c)
  | [a, b, c, d] =>
    decide ((b = ':' ∧ isDigit09 a ∧ isDigit09 c ∧ isDigit09 d
              ∧ 10 * digitVal c + digitVal d < 60)
            ∨ (c = ':' ∧ isDigit09 a ∧ isDigit09 b
              ∧ 10 * digitVal a + digitVal b < 24 ∧ isDigit09 d))
  | [a, b, c, d, e] =>
    decide (c = ':' ∧ isDigit09 a ∧ isDigit09 b ∧ 10 * digitVal a + digitVal b < 24
            ∧ isDigit09 d ∧ isDigit09 e ∧ 10 * digitVal d + digitVal e < 60)
  | _ => false

/-! ## Concrete fixtures used by witnesses and counterexamples -/

/-- A fixed "now": 2025-10-10 12:00:00.000000. -/
def now0 : PyDateTime := ⟨⟨2025, 10, 10⟩, 12, 0, 0, 0⟩

/-- The matching "today". -/
def today0 : PyDate := ⟨2025, 10, 10⟩

def trowOverdue : TaskRow :=
  ⟨1, 1, "CS101", "Essay", "", "2025-10-10", "09:00", "To do", "2025-09-01T10:00:00", "Low"⟩

def trowDueToday : TaskRow :=
  ⟨2, 1, "CS101", "Quiz", "", "2025-10-10", "18:00", "In progress", "2025-09-01T10:05:00", "High"⟩

def trowDueSoon : TaskRow :=
  ⟨3, 1, "MA200", "Sheet", "", "2025-10-12", "10:00", "To do", "2025-09-02T08:00:00", "High"⟩

def trowNormal : TaskRow :=
  ⟨4, 1, "MA200", "Project", "plan", "2025-11-20", "", "To do", "2025-09-03T09:00:00", "Medium"⟩

def trowDone : TaskRow :=
  ⟨5, 1, "CS101", "Lab", "", "2025-10-01", "10:00", "Completed", "2025-08-20T10:00:00", "Low"⟩

/-- A row whose module name strips to the empty string. -/
def trowBlankModule : TaskRow :=
  ⟨6, 1, " ", "Stray", "", "2025-10-20", "10:00", "To do", "2025-09-04T10:00:00", "Medium"⟩

def sampleTasks : List TaskRow :=
  [trowDone, trowOverdue, trowDueToday, trowDueSoon, trowNormal]

/-- A one-row store whose only task belongs to user 2. -/
def dbOtherOwner : List TaskRow :=
  [⟨1, 2, "CS101", "Essay", "", "2025-10-20", "10:00", "To do", "2025-09-01T10:00:00", "Low"⟩]

/-- A one-row store whose only task belongs to user 1. -/
def dbOwned : List TaskRow :=
  [⟨1, 1, "CS101", "Essay", "", "2025-10-20", "10:00", "In progress", "2025-09-01T10:00:00", "Low"⟩]

/-! ## Helper lemmas -/

theorem normalize_time_hhmm_idem (t : String) :
    normalize_time_hhmm (normalize_time_hhmm t) = normalize_time_hhmm t := by
  by_cases h1 : t = ""
  · subst h1
    decide
  · by_cases h2 : (readHM t.toList).isSome = true
    · have e : normalize_time_hhmm t = t := by
        unfold normalize_time_hhmm
        rw [if_neg h1, if_pos h2]
      rw [e]
      exact e
    · have e : normalize_time_hhmm t = "23:59" := by
        unfold normalize_time_hhmm
        rw [if_neg h1, if_neg h2]
      rw [e]
      decide

theorem parse_due_datetime_norm (d t : String) :
    parse_due_datetime d (normalize_time_hhmm t) = parse_due_datetime d t := by
  unfold parse_due_datetime
  rw [normalize_time_hhmm_idem]

/-! ## Claims about the deadline/priority engine -/

/-- C1: for a non-completed task whose due moment parses, is not
strictly before `now`, whose due date is not `today`, and whose due date
lies 1 to 3 days ahead of `today`, `effective_priority` returns
`("Medium", true)` regardless of the stored priority — the rule
unconditionally overwrites, it does not take a max with a stored
`"High"`. -/
theorem C1_medium_band_overwrites_stored
    (ddate dtime status stored : String) (now : PyDateTime) (today : PyDate) (m : PyDateTime)
    (hst : status ≠ "Completed")
    (hp : parse_due_datetime ddate dtime = some m)
    (hlt : ¬ PyDateTime.ltP m now)
    (hneq : m.date ≠ today)
    (hdays : 1 ≤ daysUntil today m.date ∧ daysUntil today m.date ≤ 3) :
    effective_priority ddate dtime status stored now today = ("Medium", true) := by
  simp only [effective_priority, hp]
  rw [if_neg hst, if_neg hlt, if_neg hneq, if_pos hdays]

/-- Witness for C1: a task due 2025-10-12 10:00 seen at 2025-10-10 12:00
with stored priority `"High"` is reported as `("Medium", true)`. -/
theorem C1_medium_band_overwrites_stored_witness :
    effective_priority "2025-10-12" "10:00" "To do" "High" now0 today0 = ("Medium", true) :=
  C1_medium_band_overwrites_stored "2025-10-12" "10:00" "To do" "High" now0 today0
    ⟨⟨2025, 10, 12⟩, 10, 0, 0, 0⟩ (by decide) (by decide) (by decide) (by decide) (by decide)

/-- C4: for a non-completed task whose due moment parses and is strictly
before `now`, or whose due date equals `today`, `effective_priority`
returns `("High", true)`, whatever the stored priority (including
`"Low"`). -/
theorem C4_high_when_overdue_or_due_today
    (ddate dtime status stored : String) (now : PyDateTime) (today : PyDate) (m : PyDateTime)
    (hst : status ≠ "Completed")
    (hp : parse_due_datetime ddate dtime = some m)
    (h : PyDateTime.ltP m now ∨ m.date = today) :
    effective_priority ddate dtime status stored now today = ("High", true) := by
  simp only [effective_priority, hp]
  rw [if_neg hst]
  rcases h with h | h
  · rw [if_pos h]
  · by_cases hlt : PyDateTime.ltP m now
    · rw [if_pos hlt]
    · rw [if_neg hlt, if_pos h]

/-- Witness for C4: a task due later today with stored priority `"Low"`
is reported as `("High", true)`. -/
theorem C4_high_when_overdue_or_due_today_witness :
    effective_priority "2025-10-10" "18:00" "To do" "Low" now0 today0 = ("High", true) :=
  C4_high_when_overdue_or_due_today "2025-10-10" "18:00" "To do" "Low" now0 today0
    ⟨⟨2025, 10, 10⟩, 18, 0, 0, 0⟩ (by decide) (by decide) (Or.inr (by decide))

/-- C2: in the dashboard's deadline classification of a non-completed
task whose due moment parses, the full-timestamp overdue comparison is
applied before the whole-day due-today check: a due moment strictly
before `now` yields `"overdue"` (even when its date is `today`), and a
due moment not before `now` whose date is `today` yields
`"due_today"`. -/
theorem C2_overdue_check_precedes_due_today
    (now : PyDateTime) (today : PyDate) (t : TaskRow) (m : PyDateTime)
    (hst : t.status ≠ "Completed")
    (hp : parse_due_datetime t.due_date t.due_time = some m) :
    (PyDateTime.ltP m now → task_deadline_state now today t = "overdue")
    ∧ (¬ PyDateTime.ltP m now → m.date = today → task_deadline_state now today t = "due_today") := by
  have hp2 : parse_due_datetime t.due_date (normalize_time_hhmm t.due_time) = some m := by
    rw [parse_due_datetime_norm]
    exact hp
  constructor
  · intro hlt
    simp only [task_deadline_state, hp2]
    rw [if_neg hst, if_pos hlt]
  · intro hlt heq
    simp only [task_deadline_state, hp2]
    rw [if_neg hst, if_neg hlt, if_pos heq]

/-- Witness for C2: at 2025-10-10 12:00, a task due today 09:00 is
`"overdue"` while a task due today 18:00 is `"due_today"`. -/
theorem C2_overdue_check_precedes_due_today_witness :
    task_deadline_state now0 today0 trowOverdue = "overdue"
    ∧ task_deadline_state now0 today0 trowDueToday = "due_today" :=
  ⟨(C2_overdue_check_precedes_due_today now0 today0 trowOverdue
      ⟨⟨2025, 10, 10⟩, 9, 0, 0, 0⟩ (by decide) (by decide)).1 (by decide),
   (C2_overdue_check_precedes_due_today now0 today0 trowDueToday
      ⟨⟨2025, 10, 10⟩, 18, 0, 0, 0⟩ (by decide) (by decide)).2 (by decide) (by decide)⟩

/-! ## C3: totality and correctness of `normalize_time_hhmm` -/

theorem isSome_map_eq {α β : Type} (f : α → β) (o : Option α) :
    (o.map f).isSome = o.isSome := by
  cases o <;> rfl

/-- The source-derived strptime `"%H:%M"` matcher accepts exactly the
strings the spec calls valid 24-hour hour:minute values. -/
theorem readHM_isSome_eq_validHM24 (l : List Char) : (readHM l).isSome = validHM24 l := by
  have hcol : Char.toNat ':' = 58 := rfl
  rcases l with _ | ⟨a, _ | ⟨b, _ | ⟨c, _ | ⟨d, _ | ⟨e, _ | ⟨f, rest⟩⟩⟩⟩⟩⟩
  · rfl
  · rfl
  · simp only [readHM, readMin, validHM24, isSome_map_eq]
    split_ifs <;> simp_all [hourTwoOk, isDigit09, digitVal]
  · simp only [readHM, readMin, validHM24, isSome_map_eq]
    split_ifs <;> simp_all [hourTwoOk, isDigit09, digitVal] <;> omega
  · by_cases hb : b = ':'
    · subst hb
      simp only [readHM, readMin, validHM24, isSome_map_eq]
      split_ifs <;> simp_all [hourTwoOk, isDigit09, digitVal] <;> omega
    · by_cases hc : c = ':'
      · subst hc
        simp only [readHM, readMin, validHM24, isSome_map_eq]
        split_ifs <;> simp_all [hourTwoOk, isDigit09, digitVal] <;> omega
      · simp only [readHM, readMin, validHM24, isSome_map_eq]
        split_ifs <;> simp_all [hourTwoOk, isDigit09, digitVal] <;> omega
  · by_cases hb : b = ':'
    · subst hb
      simp only [readHM, readMin, validHM24, isSome_map_eq]
      split_ifs <;> simp_all [hourTwoOk, isDigit09, digitVal] <;> omega
    · by_cases hc : c = ':'
      · subst hc
        simp only [readHM, readMin, validHM24, isSome_map_eq]
        split_ifs <;> simp_all [hourTwoOk, isDigit09, digitVal] <;> omega
      · simp only [readHM, readMin, validHM24, isSome_map_eq]
        split_ifs <;> simp_all [hourTwoOk, isDigit09, digitVal] <;> omega
  · simp only [readHM, readMin, validHM24, isSome_map_eq]
    split_ifs <;> simp_all [hourTwoOk, isDigit09, digitVal]

/-- C3: `normalize_time_hhmm` is total: it returns its input unchanged
exactly when the input is a valid 24-hour hour:minute string, returns
`"23:59"` for every other input (including `""`, `"9am"`, `"25:99"`),
and its result is always a valid hour:minute string. -/
theorem C3_normalize_time_total (t : String) :
    (validHM24 t.toList = true → normalize_time_hhmm t = t)
    ∧ (validHM24 t.toList = false → normalize_time_hhmm t = "23:59")
    ∧ validHM24 (normalize_time_hhmm t).toList = true := by
  have key : (readHM t.toList).isSome = validHM24 t.toList := readHM_isSome_eq_validHM24 _
  by_cases h1 : t = ""
  · subst h1
    refine ⟨fun h => absurd h (by decide), fun _ => by decide, by decide⟩
  · by_cases h2 : (readHM t.toList).isSome = true
    · have e : normalize_time_hhmm t = t := by
        unfold normalize_time_hhmm
        rw [if_neg h1, if_pos h2]
      rw [key] at h2
      refine ⟨fun _ => e, fun hf => ?_, ?_⟩
      · rw [h2] at hf
        exact absurd hf (by decide)
      · rw [e]
        exact h2
    · have e : normalize_time_hhmm t = "23:59" := by
        unfold normalize_time_hhmm
        rw [if_neg h1, if_neg h2]
      rw [key] at h2
      refine ⟨fun hv => absurd hv h2, fun _ => e, ?_⟩
      rw [e]
      decide

/-- Witness for C3 on the spec's own examples: `""`, `"9am"` and
`"25:99"` normalize to `"23:59"`, while the valid `"07:30"` is kept. -/
theorem C3_normalize_time_total_witness :
    normalize_time_hhmm "" = "23:59"
    ∧ normalize_time_hhmm "9am" = "23:59"
    ∧ normalize_time_hhmm "25:99" = "23:59"
    ∧ normalize_time_hhmm "07:30" = "07:30" :=
  ⟨(C3_normalize_time_total "").2.1 (by decide),
   (C3_normalize_time_total "9am").2.1 (by decide),
   (C3_normalize_time_total "25:99").2.1 (by decide),
   (C3_normalize_time_total "07:30").1 (by decide)⟩

/-! ## C5: the dashboard counters agree with the derived deadline states -/

theorem dashStep_overdue_eq (now : PyDateTime) (today : PyDate) (s : DashStats) (t : TaskRow) :
    (dashStep now today s t).overdue
      = s.overdue + (if task_deadline_state now today t = "overdue" then 1 else 0) := rfl

theorem dashStep_due_soon_eq (now : PyDateTime) (today : PyDate) (s : DashStats) (t : TaskRow) :
    (dashStep now today s t).due_soon
      = s.due_soon
        + (if task_deadline_state now today t = "due_today" ∨ task_deadline_state now today t = "due_soon"
           then 1 else 0) := rfl

theorem foldl_dashStep_overdue (now : PyDateTime) (today : PyDate) :
    ∀ (ts : List TaskRow) (s : DashStats),
      (ts.foldl (dashStep now today) s).overdue
        = s.overdue + ts.countP (fun t => task_deadline_state now today t = "overdue") := by
  intro ts
  induction ts with
  | nil => intro s; simp
  | cons t ts ih =>
    intro s
    rw [List.foldl_cons, ih, List.countP_cons, dashStep_overdue_eq]
    by_cases h : task_deadline_state now today t = "overdue" <;> simp [h] <;> omega

theorem foldl_dashStep_due_soon (now : PyDateTime) (today : PyDate) :
    ∀ (ts : List TaskRow) (s : DashStats),
      (ts.foldl (dashStep now today) s).due_soon
        = s.due_soon + ts.countP (fun t => task_deadline_state now today t = "due_today")
          + ts.countP (fun t => task_deadline_state now today t = "due_soon") := by
  intro ts
  induction ts with
  | nil => intro s; simp
  | cons t ts ih =>
    intro s
    rw [List.foldl_cons, ih, List.countP_cons, List.countP_cons, dashStep_due_soon_eq]
    by_cases h1 : task_deadline_state now today t = "due_today" <;>
      by_cases h2 : task_deadline_state now today t = "due_soon" <;>
      simp_all <;> omega

theorem task_deadline_state_of_completed (now : PyDateTime) (today : PyDate) (t : TaskRow)
    (h : t.status = "Completed") : task_deadline_state now today t = "completed" := by
  simp [task_deadline_state, h]

/-- C5: in the dashboard aggregation over any task list, the overdue
counter equals the number of tasks whose derived `deadline_state` is
`"overdue"`, the due-soon counter equals the number classified
`"due_today"` plus the number classified `"due_soon"`, and tasks with
status `"Completed"` are classified `"completed"`, so they contribute to
neither counter. -/
theorem C5_counters_match_deadline_states (now : PyDateTime) (today : PyDate) (ts : List TaskRow) :
    (dashboard_stats now today ts).overdue
      = ts.countP (fun t => task_deadline_state now today t = "overdue")
    ∧ (dashboard_stats now today ts).due_soon
      = ts.countP (fun t => task_deadline_state now today t = "due_today")
        + ts.countP (fun t => task_deadline_state now today t = "due_soon")
    ∧ ∀ t ∈ ts, t.status = "Completed" → task_deadline_state now today t = "completed" := by
  refine ⟨?_, ?_, fun t _ ht => task_deadline_state_of_completed now today t ht⟩
  · rw [dashboard_stats, foldl_dashStep_overdue]
    simp
  · rw [dashboard_stats, foldl_dashStep_due_soon]
    simp

/-- Witness for C5 on a five-task sample containing one completed, one
overdue, one due-today, one due-soon and one far-future task. -/
theorem C5_counters_match_deadline_states_witness :
    (dashboard_stats now0 today0 sampleTasks).overdue
      = sampleTasks.countP (fun t => task_deadline_state now0 today0 t = "overdue")
    ∧ (dashboard_stats now0 today0 sampleTasks).due_soon
      = sampleTasks.countP (fun t => task_deadline_state now0 today0 t = "due_today")
        + sampleTasks.countP (fun t => task_deadline_state now0 today0 t = "due_soon")
    ∧ task_deadline_state now0 today0 trowDone = "completed" :=
  ⟨(C5_counters_match_deadline_states now0 today0 sampleTasks).1,
   (C5_counters_match_deadline_states now0 today0 sampleTasks).2.1,
   (C5_counters_match_deadline_states now0 today0 sampleTasks).2.2 trowDone (by decide) (by decide)⟩

/-! ## C6: the completion percentage formula -/

/-- C6: `completion_percent` is 0 on an empty task list, otherwise
`round(completed / total * 100)` (Python rounding on the exact ratio);
the per-module percentage uses the same formula with the same zero
guard; and 1 completed out of 3 total gives 33. -/
theorem C6_completion_percent_formula (c t : Nat) :
    completion_percent c 0 = 0
    ∧ (t ≠ 0 → completion_percent c t = pyRound (((c : ℚ) / (t : ℚ)) * 100))
    ∧ module_percent c t = completion_percent c t
    ∧ completion_percent 1 3 = 33 := by
  refine ⟨rfl, fun h => ?_, ?_, ?_⟩
  · rw [completion_percent, if_neg h]
  · rw [module_percent, completion_percent]
  · have h3 : (((1 : Nat) : ℚ) / ((3 : Nat) : ℚ)) * 100 = 100 / 3 := by norm_num
    rw [completion_percent, if_neg (by norm_num), h3, pyRound]
    have hf : ⌊(100 / 3 : ℚ)⌋ = 33 := by
      rw [Int.floor_eq_iff]
      norm_num
    rw [hf]
    norm_num

/-- Witness for C6: the nonzero-total branch evaluated at 1 of 3. -/
theorem C6_completion_percent_formula_witness :
    completion_percent 1 3 = pyRound (((1 : ℚ) / (3 : ℚ)) * 100)
    ∧ completion_percent 1 3 = 33
    ∧ completion_percent 7 0 = 0
    ∧ module_percent 1 3 = completion_percent 1 3 :=
  ⟨(C6_completion_percent_formula 1 3).2.1 (by norm_num),
   (C6_completion_percent_formula 1 3).2.2.2,
   (C6_completion_percent_formula 7 0).1,
   (C6_completion_percent_formula 1 3).2.2.1⟩

/-! ## C10: invalid submitted status values are silently coerced -/

/-- C10: an owner's status update whose submitted value is not one of
the three legal statuses — or is absent altogether — is not rejected:
it is silently coerced to `"To do"` and written to every row matching
the id and owner, with the usual `"Status updated."` notice and no
error. -/
theorem C10_invalid_status_coerced_to_todo (db : List TaskRow) (uid tid : Nat) (s : String)
    (h1 : s ≠ "To do") (h2 : s ≠ "In progress") (h3 : s ≠ "Completed") :
    update_status db uid tid (some s)
      = (db.map (fun r =>
            if r.id = tid ∧ r.user_id = uid then { r with status := "To do" } else r),
         "Status updated.")
    ∧ update_status db uid tid none
      = (db.map (fun r =>
            if r.id = tid ∧ r.user_id = uid then { r with status := "To do" } else r),
         "Status updated.") := by
  have hc : ¬(s = "To do" ∨ s = "In progress" ∨ s = "Completed") := by
    simp [h1, h2, h3]
  constructor
  · simp only [update_status, Option.getD_some, if_neg hc]
  · simp [update_status]

/-- Witness for C10: for an owned in-progress task, submitting `"Done!"`
or submitting no status at all both overwrite the status with `"To do"`
and flash success. -/
theorem C10_invalid_status_coerced_to_todo_witness :
    update_status dbOwned 1 1 (some "Done!")
      = ([⟨1, 1, "CS101", "Essay", "", "2025-10-20", "10:00", "To do", "2025-09-01T10:00:00", "Low"⟩],
         "Status updated.")
    ∧ update_status dbOwned 1 1 none
      = ([⟨1, 1, "CS101", "Essay", "", "2025-10-20", "10:00", "To do", "2025-09-01T10:00:00", "Low"⟩],
         "Status updated.") := by
  have hh :=
    C10_invalid_status_coerced_to_todo dbOwned 1 1 "Done!" (by decide) (by decide) (by decide)
  constructor
  · rw [hh.1]
    decide
  · rw [hh.2]
    decide

/-! ## C8: ownership violations are silent no-ops -/

theorem map_update_not_matching (db : List TaskRow) (tid uid : Nat) (g : TaskRow → TaskRow)
    (hcond : ∀ r ∈ db, ¬(r.id = tid ∧ r.user_id = uid)) :
    db.map (fun r => if r.id = tid ∧ r.user_id = uid then g r else r) = db := by
  calc db.map (fun r => if r.id = tid ∧ r.user_id = uid then g r else r)
      = db.map id := List.map_congr_left (fun r hr => if_neg (hcond r hr))
    _ = db := List.map_id db

theorem edit_task_not_owned_eq (db : List TaskRow) (uid tid : Nat) (f : EditForm)
    (hcond : ∀ r ∈ db, ¬(r.id = tid ∧ r.user_id = uid)) :
    edit_task db uid tid f
      = (db,
         if pyStrip f.module_name = "" ∨ pyStrip f.title = "" ∨ pyStrip f.due_date = "" then
           "Module, Title and Due Date are required to edit a task."
         else if (parse_due_datetime (pyStrip f.due_date)
                    (normalize_time_hhmm (pyStrip f.due_time))).isNone then
           "Invalid deadline. Please use the date/time pickers."
         else "Task not found or you don't have permission to edit it.") := by
  have hrc : db.countP (fun r => decide (r.id = tid ∧ r.user_id = uid)) = 0 := by
    rw [List.countP_eq_zero]
    intro r hr
    simpa using hcond r hr
  simp only [edit_task]
  split_ifs with hv1 hv2
  · rfl
  · rfl
  · rw [map_update_not_matching db tid uid _ hcond]

/-- C8 (amended): an edit, delete, or status-update naming a task id not
owned by the acting identity leaves the store unchanged and never hard
fails; the edit route reports either one of its form-validation notices
or the generic "not found or not permitted" notice (the latter whenever
the form is valid), while the delete and status-update routes report
their usual unconditional "Task deleted." / "Status updated." notices.
None of the three notices reveals whether the task exists: under the
same non-ownership condition each route's notice is identical over any
two stores, in particular over a store holding the targeted id and one
holding no task at all. -/
theorem C8_ownership_noop_amended (db : List TaskRow) (uid tid : Nat) (f : EditForm)
    (s : Option String)
    (h : ∀ r ∈ db, r.id = tid → r.user_id ≠ uid) :
    (edit_task db uid tid f).1 = db
    ∧ ((edit_task db uid tid f).2 = "Module, Title and Due Date are required to edit a task."
       ∨ (edit_task db uid tid f).2 = "Invalid deadline. Please use the date/time pickers."
       ∨ (edit_task db uid tid f).2 = "Task not found or you don't have permission to edit it.")
    ∧ (pyStrip f.module_name ≠ "" → pyStrip f.title ≠ "" → pyStrip f.due_date ≠ "" →
        ¬((parse_due_datetime (pyStrip f.due_date)
            (normalize_time_hhmm (pyStrip f.due_time))).isNone = true) →
        (edit_task db uid tid f).2 = "Task not found or you don't have permission to edit it.")
    ∧ delete_task db uid tid = (db, "Task deleted.")
    ∧ update_status db uid tid s = (db, "Status updated.")
    ∧ (∀ db2 : List TaskRow, (∀ r ∈ db2, r.id = tid → r.user_id ≠ uid) →
        (edit_task db uid tid f).2 = (edit_task db2 uid tid f).2
        ∧ (delete_task db uid tid).2 = (delete_task db2 uid tid).2
        ∧ (update_status db uid tid s).2 = (update_status db2 uid tid s).2) := by
  have hcond : ∀ r ∈ db, ¬(r.id = tid ∧ r.user_id = uid) := fun r hr hh => h r hr hh.1 hh.2
  have he := edit_task_not_owned_eq db uid tid f hcond
  refine ⟨by rw [he], ?_, ?_, ?_, ?_, ?_⟩
  · rw [he]
    dsimp only
    split_ifs
    · exact Or.inl rfl
    · exact Or.inr (Or.inl rfl)
    · exact Or.inr (Or.inr rfl)
  · intro h1 h2 h3 h4
    rw [he]
    dsimp only
    rw [if_neg (by simp [h1, h2, h3]), if_neg h4]
  · simp only [delete_task]
    have hfil : db.filter (fun r => !(decide (r.id = tid ∧ r.user_id = uid))) = db := by
      rw [List.filter_eq_self]
      intro r hr
      cases hdec : decide (r.id = tid ∧ r.user_id = uid)
      · rfl
      · exact absurd (of_decide_eq_true hdec) (hcond r hr)
    rw [hfil]
  · simp only [update_status]
    rw [map_update_not_matching db tid uid _ hcond]
  · intro db2 h2
    have hcond2 : ∀ r ∈ db2, ¬(r.id = tid ∧ r.user_id = uid) :=
      fun r hr hh => h2 r hr hh.1 hh.2
    have he2 := edit_task_not_owned_eq db2 uid tid f hcond2
    refine ⟨?_, rfl, rfl⟩
    rw [he, he2]

/-- Counterexample for C8 as frozen: a delete and a status update aimed
at a task owned by someone else do leave the store unchanged, but they
flash the generic success notices "Task deleted." / "Status updated.",
not a "not found or not permitted" notice (which only the edit route
produces). -/
theorem C8_ownership_noop_counterexample :
    (delete_task dbOtherOwner 1 1).1 = dbOtherOwner
    ∧ (delete_task dbOtherOwner 1 1).2 = "Task deleted."
    ∧ (delete_task dbOtherOwner 1 1).2 ≠ "Task not found or you don't have permission to edit it."
    ∧ (update_status dbOtherOwner 1 1 (some "Completed")).1 = dbOtherOwner
    ∧ (update_status dbOtherOwner 1 1 (some "Completed")).2 = "Status updated." := by
  decide

/-- Witness for the amended C8: user 1 acting on user 2's task id 1
with a fully valid edit form. -/
theorem C8_ownership_noop_amended_witness :
    (edit_task dbOtherOwner 1 1 ⟨"CS101", "New title", "2025-12-01", "10:00", "", "Low"⟩).1
        = dbOtherOwner
    ∧ (edit_task dbOtherOwner 1 1 ⟨"CS101", "New title", "2025-12-01", "10:00", "", "Low"⟩).2
        = "Task not found or you don't have permission to edit it."
    ∧ delete_task dbOtherOwner 1 1 = (dbOtherOwner, "Task deleted.")
    ∧ update_status dbOtherOwner 1 1 (some "Completed") = (dbOtherOwner, "Status updated.")
    ∧ (delete_task dbOtherOwner 1 1).2 = (delete_task [] 1 1).2 :=
  ⟨(C8_ownership_noop_amended dbOtherOwner 1 1
      ⟨"CS101", "New title", "2025-12-01", "10:00", "", "Low"⟩ (some "Completed")
      (by decide)).1,
   (C8_ownership_noop_amended dbOtherOwner 1 1
      ⟨"CS101", "New title", "2025-12-01", "10:00", "", "Low"⟩ (some "Completed")
      (by decide)).2.2.1 (by decide) (by decide) (by decide) (by decide),
   (C8_ownership_noop_amended dbOtherOwner 1 1
      ⟨"CS101", "New title", "2025-12-01", "10:00", "", "Low"⟩ (some "Completed")
      (by decide)).2.2.2.1,
   (C8_ownership_noop_amended dbOtherOwner 1 1
      ⟨"CS101", "New title", "2025-12-01", "10:00", "", "Low"⟩ (some "Completed")
      (by decide)).2.2.2.2.1,
   ((C8_ownership_noop_amended dbOtherOwner 1 1
      ⟨"CS101", "New title", "2025-12-01", "10:00", "", "Low"⟩ (some "Completed")
      (by decide)).2.2.2.2.2 []
      (fun r hr => absurd hr (List.not_mem_nil r))).2.1⟩

/-! ## C9: CSV export matches the dashboard -/

theorem export_row_eq_view_row (now : PyDateTime) (today : PyDate) (t : TaskRow) :
    export_row now today t = csv_row_of_view (dashboard_task_view now today t) := rfl

/-- C9: for the same task list (both routes issue the identical
`ORDER BY due_date ASC, due_time ASC` query for the same user) at the
same instant, the CSV export has the documented header, emits exactly
one data row per task in exactly the dashboard's order with exactly the
dashboard view-model's fields, its Deadline column is the formatted
`dd/mm/yyyy` date plus the normalized `HH:MM` time, and its Priority
column is the task's effective priority. -/
theorem C9_export_matches_dashboard (now : PyDateTime) (today : PyDate) (ts : List TaskRow) :
    export_csv_header
      = ["Module", "Title", "Description", "Deadline", "Status", "Priority", "Created At"]
    ∧ export_rows now today ts = (dashboard_tasks now today ts).map csv_row_of_view
    ∧ (export_rows now today ts).length = ts.length
    ∧ (∀ t : TaskRow,
        (export_row now today t)[3]?
          = some (format_ymd_date t.due_date ++ " " ++ normalize_time_hhmm t.due_time)
        ∧ (export_row now today t)[5]?
          = some ((effective_priority t.due_date (normalize_time_hhmm t.due_time)
                    t.status t.priority now today).1))
    ∧ (∀ s : String, ∀ d : PyDate, parseDateYMD s = some d →
        format_ymd_date s = pad2 d.day ++ "/" ++ pad2 d.month ++ "/" ++ pad4 d.year) := by
  refine ⟨rfl, ?_, by simp [export_rows], fun t => ⟨rfl, rfl⟩, ?_⟩
  · rw [dashboard_tasks, List.map_map, export_rows]
    exact List.map_congr_left (fun t _ => export_row_eq_view_row now today t)
  · intro s d hp
    have hs : s ≠ "" := by
      intro hempty
      rw [hempty] at hp
      have hnone : parseDateYMD "" = none := rfl
      rw [hnone] at hp
      exact Option.noConfusion hp
    rw [format_ymd_date, if_neg hs, hp]

/-- Witness for C9 on a one-task list, including the `dd/mm/yyyy`
formatting of a parsed date. -/
theorem C9_export_matches_dashboard_witness :
    export_rows now0 today0 [trowDueSoon]
      = (dashboard_tasks now0 today0 [trowDueSoon]).map csv_row_of_view
    ∧ format_ymd_date "2025-10-12" = pad2 12 ++ "/" ++ pad2 10 ++ "/" ++ pad4 2025 :=
  ⟨(C9_export_matches_dashboard now0 today0 [trowDueSoon]).2.1,
   (C9_export_matches_dashboard now0 today0 [trowDueSoon]).2.2.2.2 "2025-10-12"
     ⟨2025, 10, 12⟩ (by decide)⟩

/-! ## C7: the per-module summary -/

theorem bumpModule_keys (mp : List (String × Nat × Nat)) (m : String) (c : Bool) :
    (bumpModule mp m c).map (fun p => p.1)
      = if m ∈ mp.map (fun p => p.1) then mp.map (fun p => p.1)
        else mp.map (fun p => p.1) ++ [m] := by
  induction mp with
  | nil => simp [bumpModule]
  | cons p rest ih =>
    obtain ⟨k, tot, comp⟩ := p
    by_cases hk : k = m
    · subst hk
      simp [bumpModule]
    · have hmk : ¬(m = k) := fun hh => hk hh.symm
      simp only [bumpModule, if_neg hk, List.map_cons, ih, List.mem_cons, hmk, false_or]
      by_cases hm : m ∈ rest.map (fun p => p.1) <;> simp [hm]

theorem bumpModule_keys_mem (mp : List (String × Nat × Nat)) (m x : String) (c : Bool) :
    x ∈ (bumpModule mp m c).map (fun p => p.1)
      ↔ x ∈ mp.map (fun p => p.1) ∨ x = m := by
  rw [bumpModule_keys]
  by_cases hm : m ∈ mp.map (fun p => p.1)
  · rw [if_pos hm]
    constructor
    · exact Or.inl
    · rintro (h | h)
      · exact h
      · subst h
        exact hm
  · rw [if_neg hm]
    simp [List.mem_append]

theorem bumpModule_keys_nodup (mp : List (String × Nat × Nat)) (m : String) (c : Bool)
    (h : (mp.map (fun p => p.1)).Nodup) :
    ((bumpModule mp m c).map (fun p => p.1)).Nodup := by
  rw [bumpModule_keys]
  by_cases hm : m ∈ mp.map (fun p => p.1)
  · rw [if_pos hm]
    exact h
  · rw [if_neg hm]
    refine List.Nodup.append h (List.nodup_singleton m) ?_
    intro x hx hx2
    rw [List.mem_singleton] at hx2
    subst hx2
    exact hm hx

theorem lookupMod_bumpModule_same (mp : List (String × Nat × Nat)) (m : String) (c : Bool) :
    lookupMod (bumpModule mp m c) m
      = ((lookupMod mp m).1 + 1,
         if c then (lookupMod mp m).2 + 1 else (lookupMod mp m).2) := by
  induction mp with
  | nil => simp [bumpModule, lookupMod]
  | cons p rest ih =>
    obtain ⟨k, tot, comp⟩ := p
    by_cases hk : k = m
    · subst hk
      simp [bumpModule, lookupMod]
    · simp [bumpModule, lookupMod, hk, ih]

theorem lookupMod_bumpModule_other (mp : List (String × Nat × Nat)) (m x : String) (c : Bool)
    (hx : x ≠ m) : lookupMod (bumpModule mp m c) x = lookupMod mp x := by
  have hmx : ¬(m = x) := fun hh => hx hh.symm
  induction mp with
  | nil => simp [bumpModule, lookupMod, hmx]
  | cons p rest ih =>
    obtain ⟨k, tot, comp⟩ := p
    by_cases hk : k = m
    · have e : bumpModule ((k, tot, comp) :: rest) m c
          = (k, tot + 1, if c then comp + 1 else comp) :: rest := by
        simp [bumpModule, hk]
      rw [e]
      have hkx : ¬(k = x) := by
        rw [hk]
        exact hmx
      simp [lookupMod, hkx]
    · have e : bumpModule ((k, tot, comp) :: rest) m c
          = (k, tot, comp) :: bumpModule rest m c := by
        simp [bumpModule, hk]
      rw [e]
      by_cases hkx : k = x
      · subst hkx
        simp [lookupMod]
      · simp [lookupMod, hkx, ih]

theorem foldl_moduleStep_keys_mem (x : String) :
    ∀ (ts : List TaskRow) (mp : List (String × Nat × Nat)),
      x ∈ ((ts.foldl moduleStep mp).map (fun p => p.1))
        ↔ x ∈ mp.map (fun p => p.1) ∨ (x ≠ "" ∧ ∃ t ∈ ts, pyStrip t.module_name = x) := by
  intro ts
  induction ts with
  | nil =>
    intro mp
    simp
  | cons t ts ih =>
    intro mp
    rw [List.foldl_cons, ih]
    simp only [moduleStep]
    by_cases hm : pyStrip t.module_name = ""
    · rw [if_pos hm]
      constructor
      · rintro (h | ⟨hne, u, hu, hux⟩)
        · exact Or.inl h
        · exact Or.inr ⟨hne, u, List.mem_cons_of_mem t hu, hux⟩
      · rintro (h | ⟨hne, u, hu, hux⟩)
        · exact Or.inl h
        · rcases List.mem_cons.mp hu with h1 | h1
          · subst h1
            rw [hux] at hm
            exact absurd hm hne
          · exact Or.inr ⟨hne, u, h1, hux⟩
    · rw [if_neg hm, bumpModule_keys_mem]
      constructor
      · rintro ((h | h) | ⟨hne, u, hu, hux⟩)
        · exact Or.inl h
        · exact Or.inr ⟨by rw [h]; exact hm, t, List.mem_cons_self t ts, h.symm⟩
        · exact Or.inr ⟨hne, u, List.mem_cons_of_mem t hu, hux⟩
      · rintro (h | ⟨hne, u, hu, hux⟩)
        · exact Or.inl (Or.inl h)
        · rcases List.mem_cons.mp hu with h1 | h1
          · subst h1
            exact Or.inl (Or.inr hux.symm)
          · exact Or.inr ⟨hne, u, h1, hux⟩

theorem foldl_moduleStep_keys_nodup :
    ∀ (ts : List TaskRow) (mp : List (String × Nat × Nat)),
      (mp.map (fun p => p.1)).Nodup → ((ts.foldl moduleStep mp).map (fun p => p.1)).Nodup := by
  intro ts
  induction ts with
  | nil =>
    intro mp h
    exact h
  | cons t ts ih =>
    intro mp h
    rw [List.foldl_cons]
    apply ih
    simp only [moduleStep]
    split_ifs
    · exact h
    · exact bumpModule_keys_nodup mp _ _ h

theorem foldl_moduleStep_lookup (x : String) (hx : x ≠ "") :
    ∀ (ts : List TaskRow) (mp : List (String × Nat × Nat)),
      lookupMod (ts.foldl moduleStep mp) x
        = ((lookupMod mp x).1 + ts.countP (fun t => pyStrip t.module_name = x),
           (lookupMod mp x).2
             + ts.countP (fun t => pyStrip t.module_name = x ∧ t.status = "Completed")) := by
  intro ts
  induction ts with
  | nil =>
    intro mp
    simp
  | cons t ts ih =>
    intro mp
    rw [List.foldl_cons, ih, List.countP_cons, List.countP_cons]
    simp only [moduleStep]
    by_cases hm : pyStrip t.module_name = ""
    · rw [if_pos hm]
      have h1 : ¬(pyStrip t.module_name = x) := by
        rw [hm]
        exact fun hh => hx hh.symm
      simp [h1]
    · rw [if_neg hm]
      by_cases hmx : pyStrip t.module_name = x
      · rw [hmx, lookupMod_bumpModule_same]
        by_cases hc : t.status = "Completed" <;> simp [hmx, hc] <;> omega
      · rw [lookupMod_bumpModule_other mp _ x _ (fun hh => hmx hh.symm)]
        simp [hmx]

theorem bumpModule_sum_totals (mp : List (String × Nat × Nat)) (m : String) (c : Bool) :
    ((bumpModule mp m c).map (fun p => p.2.1)).sum
      = ((mp.map (fun p => p.2.1)).sum) + 1 := by
  induction mp with
  | nil => simp [bumpModule]
  | cons p rest ih =>
    obtain ⟨k, tot, comp⟩ := p
    by_cases hk : k = m <;> simp [bumpModule, hk, ih] <;> omega

theorem foldl_moduleStep_sum_totals :
    ∀ (ts : List TaskRow) (mp : List (String × Nat × Nat)),
      ((ts.foldl moduleStep mp).map (fun p => p.2.1)).sum
        = ((mp.map (fun p => p.2.1)).sum) + ts.countP (fun t => pyStrip t.module_name ≠ "") := by
  intro ts
  induction ts with
  | nil =>
    intro mp
    simp
  | cons t ts ih =>
    intro mp
    rw [List.foldl_cons, ih, List.countP_cons]
    simp only [moduleStep]
    by_cases hm : pyStrip t.module_name = ""
    · simp [hm]
    · rw [if_neg hm, bumpModule_sum_totals]
      simp [hm]
      omega

theorem sum_lookup_over_keys (mp : List (String × Nat × Nat))
    (h : (mp.map (fun p => p.1)).Nodup) :
    ((mp.map (fun p => p.1)).map (fun m => (lookupMod mp m).1)).sum
      = (mp.map (fun p => p.2.1)).sum := by
  induction mp with
  | nil => simp
  | cons p rest ih =>
    obtain ⟨k, tot, comp⟩ := p
    simp only [List.map_cons, List.nodup_cons] at h
    obtain ⟨hk, hrest⟩ := h
    have e1 : lookupMod ((k, tot, comp) :: rest) k = (tot, comp) := by
      simp [lookupMod]
    have e2 : (rest.map (fun p => p.1)).map (fun m => (lookupMod ((k, tot, comp) :: rest) m).1)
        = (rest.map (fun p => p.1)).map (fun m => (lookupMod rest m).1) := by
      apply List.map_congr_left
      intro m hm
      have hmk : ¬(k = m) := fun hh => hk (by rw [hh]; exact hm)
      simp [lookupMod, hmk]
    simp only [List.map_cons, List.sum_cons, e1, e2, ih hrest]

/-- C7 (amended): over an arbitrary task list, the per-module summary
totals sum to the number of tasks whose whitespace-stripped module name
is non-empty — hence to the global total task count whenever every
task's stripped module name is non-empty (which task creation and edit
validation enforce), while a blank-module task is counted in the global
total but in no summary entry.  Unconditionally, the summary has one
entry per distinct non-empty stripped module name, its module names are
sorted alphabetically and duplicate-free, and each entry's
total/completed count the tasks (resp. completed tasks) of that
module. -/
theorem C7_module_summary_amended (ts : List TaskRow) :
    ((∀ t ∈ ts, pyStrip t.module_name ≠ "") →
      ((module_summary ts).map (fun e => e.total)).sum = ts.length)
    ∧ ((module_summary ts).map (fun e => e.total)).sum
        = ts.countP (fun t => pyStrip t.module_name ≠ "")
    ∧ List.Sorted (fun a b => a ≤ b) ((module_summary ts).map (fun e => e.module))
    ∧ ((module_summary ts).map (fun e => e.module)).Nodup
    ∧ (∀ x : String,
        x ∈ (module_summary ts).map (fun e => e.module)
          ↔ (x ≠ "" ∧ ∃ t ∈ ts, pyStrip t.module_name = x))
    ∧ (∀ e ∈ module_summary ts,
        e.total = ts.countP (fun t => pyStrip t.module_name = e.module)
        ∧ e.completed
            = ts.countP (fun t => pyStrip t.module_name = e.module ∧ t.status = "Completed")
        ∧ e.percent = module_percent e.completed e.total) := by
  have hkeysmem : ∀ x : String,
      x ∈ (module_summary_map ts).map (fun p => p.1)
        ↔ (x ≠ "" ∧ ∃ t ∈ ts, pyStrip t.module_name = x) := by
    intro x
    have hh := foldl_moduleStep_keys_mem x ts []
    simpa [module_summary_map] using hh
  have hnodup : ((module_summary_map ts).map (fun p => p.1)).Nodup := by
    have hh := foldl_moduleStep_keys_nodup ts [] (by simp)
    simpa [module_summary_map] using hh
  have hperm : List.Perm
      (List.insertionSort (fun a b => a ≤ b) ((module_summary_map ts).map (fun p => p.1)))
      ((module_summary_map ts).map (fun p => p.1)) :=
    List.perm_insertionSort _ _
  have hmodmap : (module_summary ts).map (fun e => e.module)
      = List.insertionSort (fun a b => a ≤ b) ((module_summary_map ts).map (fun p => p.1)) := by
    have step1 : (List.insertionSort (fun a b => a ≤ b)
          ((module_summary_map ts).map (fun p => p.1))).map
        ((fun e : ModuleSummaryEntry => e.module) ∘ (fun m =>
          ({ module := m,
             total := (lookupMod (module_summary_map ts) m).1,
             completed := (lookupMod (module_summary_map ts) m).2,
             percent := module_percent (lookupMod (module_summary_map ts) m).2
               (lookupMod (module_summary_map ts) m).1 } : ModuleSummaryEntry)))
        = (List.insertionSort (fun a b => a ≤ b)
            ((module_summary_map ts).map (fun p => p.1))).map id :=
      List.map_congr_left (fun m _ => rfl)
    rw [module_summary, List.map_map, step1, List.map_id]
  have hsum : ((module_summary ts).map (fun e => e.total)).sum
      = ts.countP (fun t => pyStrip t.module_name ≠ "") := by
    rw [module_summary, List.map_map]
    have e1 : ((fun e : ModuleSummaryEntry => e.total) ∘ (fun m =>
        ({ module := m,
           total := (lookupMod (module_summary_map ts) m).1,
           completed := (lookupMod (module_summary_map ts) m).2,
           percent := module_percent (lookupMod (module_summary_map ts) m).2
             (lookupMod (module_summary_map ts) m).1 } : ModuleSummaryEntry)))
        = fun m => (lookupMod (module_summary_map ts) m).1 := rfl
    rw [e1, (hperm.map (fun m => (lookupMod (module_summary_map ts) m).1)).sum_eq,
      sum_lookup_over_keys _ hnodup]
    have hh := foldl_moduleStep_sum_totals ts []
    simpa [module_summary_map] using hh
  refine ⟨?_, hsum, ?_, ?_, ?_, ?_⟩
  · intro h
    rw [hsum]
    exact List.countP_eq_length.mpr (fun t ht => decide_eq_true (h t ht))
  · rw [hmodmap]
    exact List.sorted_insertionSort _ _
  · rw [hmodmap]
    exact hperm.nodup_iff.mpr hnodup
  · intro x
    rw [hmodmap, hperm.mem_iff]
    exact hkeysmem x
  · intro e he
    rw [module_summary] at he
    obtain ⟨m, hm, rfl⟩ := List.mem_map.mp he
    have hmk : m ∈ (module_summary_map ts).map (fun p => p.1) := hperm.mem_iff.mp hm
    obtain ⟨hne, -⟩ := (hkeysmem m).mp hmk
    have hl := foldl_moduleStep_lookup m hne ts []
    have hl2 : lookupMod (module_summary_map ts) m
        = (ts.countP (fun t => pyStrip t.module_name = m),
           ts.countP (fun t => pyStrip t.module_name = m ∧ t.status = "Completed")) := by
      simpa [module_summary_map, lookupMod] using hl
    refine ⟨?_, ?_, rfl⟩
    · show (lookupMod (module_summary_map ts) m).1 = _
      rw [hl2]
    · show (lookupMod (module_summary_map ts) m).2 = _
      rw [hl2]

/-- Counterexample for C7 as frozen: a one-task list whose module name
strips to the empty string has an empty module summary, so the summary
totals sum to 0 while the global total task count is 1. -/
theorem C7_module_totals_counterexample :
    ((module_summary [trowBlankModule]).map (fun e => e.total)).sum = 0
    ∧ [trowBlankModule].length = 1 := by
  constructor
  · decide
  · rfl

/-- Witness for the amended C7 on the five-task sample (modules
`"CS101"` and `"MA200"`, all non-empty). -/
theorem C7_module_summary_amended_witness :
    ((module_summary sampleTasks).map (fun e => e.total)).sum = sampleTasks.length :=
  (C7_module_summary_amended sampleTasks).1 (by
    intro t ht
    fin_cases ht <;> decide)
